import Mathlib

/-!
Verification of the caffeine-SNP reporting script (`snps.py`).

The script orchestrates external genomics tools and then performs three
pieces of original logic, embedded here:

* per-SNP extraction of a single VCF data line into a CSV row
  (`snps.py` lines 101-122), modelled by `snpLookup` / `extractRow`;
* the second pass over the written CSV that rewrites genotype codes to
  human-readable labels (`snps.py` lines 138-156), modelled by
  `mapGenotype` / `processRow` / `mappingPass`;
* the sequence of subprocess invocations and their `check` flags
  (`snps.py` lines 24-95), modelled by `setupSteps` / `perSnpSteps` /
  `runStep`.

Python string primitives used by the script (`str.split` with an explicit
separator, `str.strip`) are embedded as structurally recursive functions on
`List Char` so that every definition evaluates by kernel reduction.
-/

/-- Split a character list at every occurrence of `c`, keeping empty
pieces, matching Python `str.split(sep)` for a one-character `sep`. -/
def splitOnCharList (c : Char) : List Char → List (List Char)
  | [] => [[]]
  | x :: xs =>
    let r := splitOnCharList c xs
    if x = c then
      [] :: r
    else
      match r with
      | [] => [[x]]
      | y :: ys => (x :: y) :: ys

/-- Python `s.split("\t")`. -/
def splitTab (s : String) : List String :=
  (splitOnCharList '\t' s.toList).map (fun l => String.mk l)

/-- Python `s.split(":")`. -/
def splitColon (s : String) : List String :=
  (splitOnCharList ':' s.toList).map (fun l => String.mk l)

/-- ASCII whitespace, as stripped by Python `str.strip()` on ASCII data. -/
def isPyWhitespace (c : Char) : Bool :=
  c = ' ' || c = '\t' || c = '\n' || c = '\r' || c = '\x0b' || c = '\x0c'

/-- Python `s.strip()`: remove leading and trailing whitespace. -/
def pyStrip (s : String) : String :=
  String.mk (((s.toList.dropWhile isPyWhitespace).reverse.dropWhile
    isPyWhitespace).reverse)

/-- The row written when no variant is found at a SNP position
(`snps.py` lines 115, 118, 121): the SNP id, the position, and the
sentinel `"not found"` in the four remaining columns. -/
def notFoundRow (snp_id position : String) : List String :=
  [snp_id, position, "not found", "not found", "not found", "not found"]

/-- Parse one stripped VCF data line into the CSV row written for a SNP
(`snps.py` lines 105-122): a non-empty line with at least 10 tab-separated
fields yields `[snp_id, position, REF, ALT, genotype, INFO]` where the raw
genotype is the prefix of field 10 before the first `:`; otherwise the
`notFoundRow` is written. -/
def extractRow (snp_id position line : String) : List String :=
  if line = "" then
    notFoundRow snp_id position
  else
    let parts := splitTab line
    if 10 ≤ parts.length then
      [snp_id, position, parts.getD 3 "", parts.getD 4 "",
        (splitColon (parts.getD 9 "")).headD "", parts.getD 7 ""]
    else
      notFoundRow snp_id position

/-- The per-SNP lookup (`snps.py` lines 102-122): the query output, with
comment lines already removed by `grep -v`, is a list of data lines; only
the first line is read (`readline`), stripped, and parsed; an empty file
yields the `notFoundRow`. -/
def snpLookup (snp_id position : String) (dataLines : List String) :
    List String :=
  match dataLines with
  | [] => notFoundRow snp_id position
  | l :: _ => extractRow snp_id position (pyStrip l)

/-- The genotype code rewriting applied to the genotype column
(`snps.py` lines 144-149). -/
def mapGenotype (g : String) : String :=
  if g = "0/0" then "Homozygous Reference"
  else if g = "0/1" then "Heterozygous"
  else if g = "1/1" then "Homozygous Alternate"
  else g

/-- The second pass applied to one CSV data row (`snps.py` lines 142-150):
rows with at least 5 columns have column index 4 rewritten by
`mapGenotype`; shorter rows are appended unchanged. -/
def processRow (row : List String) : List String :=
  if 5 ≤ row.length then
    row.set 4 (mapGenotype (row.getD 4 ""))
  else
    row

/-- A CSV report: the header row followed by the data rows. -/
structure CsvReport where
  header : List String
  rows : List (List String)
  deriving DecidableEq

/-- The whole second pass over the report (`snps.py` lines 138-156): the
header is read and written back, every data row is processed in order. -/
def mappingPass (r : CsvReport) : CsvReport :=
  ⟨r.header, r.rows.map processRow⟩

/-- A SNP descriptor (`snps.py` lines 62-68). -/
structure Snp where
  id : String
  name : String
  position : String
  deriving DecidableEq

/-- The hardcoded SNP list (`snps.py` lines 62-68). -/
def snps : List Snp :=
  [⟨"rs762551", "CYP1A2*1F", "chr15:74749576"⟩,
   ⟨"rs2069514", "CYP1A2*1C", "chr15:74754823"⟩,
   ⟨"rs2472300", "", "chr15:74749234"⟩,
   ⟨"rs2472304", "", "chr15:74751897"⟩,
   ⟨"rs2470893", "", "chr15:74745879"⟩]

/-- The CSV header row (`snps.py` line 73). -/
def reportHeader : List String :=
  ["SNP", "Position", "Reference", "Alternative", "Genotype", "Annotation"]

/-- The report as first written (`snps.py` lines 71-122), given the data
lines the VCF query returns at each position. -/
def firstPassReport (query : String → List String) : CsvReport :=
  ⟨reportHeader, snps.map (fun s => snpLookup s.id s.position (query s.position))⟩

/-- The report after the genotype-mapping pass: what `snp_report.csv`
contains when the run completes. -/
def finalReport (query : String → List String) : CsvReport :=
  mappingPass (firstPassReport query)

/-- A pipeline step: the shell command and whether `subprocess.run` is
called with `check=True` (`snps.py` lines 24-53, 89-95). -/
structure Step where
  cmd : String
  check : Bool
  deriving DecidableEq

/-- The fixed setup invocations, all with `check=True`
(`snps.py` lines 25-53): index CRAM, extract region, index BAM, call
variants, annotate, compress, index. -/
def setupSteps : List Step :=
  [⟨"samtools index seq.cram", true⟩,
   ⟨"samtools view seq.cram chr15:74745879-74756607 -b > CYP1A2.bam", true⟩,
   ⟨"samtools index CYP1A2.bam", true⟩,
   ⟨"bcftools mpileup -f ../../../GRCh38.d1.vd1.fa CYP1A2.bam | bcftools call -mv -Ov -o CYP1A2_variants.vcf.gz", true⟩,
   ⟨"java -jar /Users/matthewkinder/snpEff/snpEff.jar -v GRCh38.99 CYP1A2_variants.vcf.gz > CYP1A2_annotated.vcf", true⟩,
   ⟨"bgzip -c CYP1A2_annotated.vcf > CYP1A2_annotated.vcf.gz", true⟩,
   ⟨"tabix -p vcf CYP1A2_annotated.vcf.gz", true⟩]

/-- The two per-SNP invocations, both with `check=False`
(`snps.py` lines 89-95): the `bcftools view` query and the `grep` filter. -/
def perSnpSteps (snp_id position : String) : List Step :=
  [⟨"bcftools view CYP1A2_annotated.vcf.gz " ++ position ++ " > temp_bcftools_output.txt", false⟩,
   ⟨"grep -v \x27^#\x27 temp_bcftools_output.txt > temp_" ++ snp_id ++ ".txt", false⟩]

/-- Semantics of `subprocess.run(cmd, shell=True, check=...)` for exit
status handling: with `check=True` a non-zero exit raises
`CalledProcessError` (modelled as `Except.error`), otherwise execution
continues. -/
def runStep (exitCode : Nat) (st : Step) : Except String Unit :=
  if st.check ∧ exitCode ≠ 0 then Except.error st.cmd else Except.ok ()

/-! ### Helper lemmas -/

lemma processRow_cons5 (a b c d e : String) (rest : List String) :
    processRow (a :: b :: c :: d :: e :: rest) =
      a :: b :: c :: d :: mapGenotype e :: rest := by
  have hl : 5 ≤ (a :: b :: c :: d :: e :: rest).length := by
    simp [List.length_cons]
  unfold processRow
  split
  · rfl
  · next h => exact absurd hl h

lemma processRow_short (row : List String) (h : row.length < 5) :
    processRow row = row := by
  unfold processRow
  split
  · next h5 => omega
  · rfl

lemma mapGenotype_of_ne (g : String) (h1 : g ≠ "0/0") (h2 : g ≠ "0/1")
    (h3 : g ≠ "1/1") : mapGenotype g = g := by
  simp [mapGenotype, h1, h2, h3]

lemma mapGenotype_idem (g : String) :
    mapGenotype (mapGenotype g) = mapGenotype g := by
  by_cases h1 : g = "0/0"
  · subst h1; decide
  by_cases h2 : g = "0/1"
  · subst h2; decide
  by_cases h3 : g = "1/1"
  · subst h3; decide
  rw [mapGenotype_of_ne g h1 h2 h3, mapGenotype_of_ne g h1 h2 h3]

lemma snpLookup_shape (snp_id position : String) (ls : List String) :
    ∃ x1 x2 x3 x4,
      snpLookup snp_id position ls = [snp_id, position, x1, x2, x3, x4] := by
  cases ls with
  | nil => exact ⟨_, _, _, _, rfl⟩
  | cons l rest =>
    show ∃ x1 x2 x3 x4,
      extractRow snp_id position (pyStrip l) = [snp_id, position, x1, x2, x3, x4]
    unfold extractRow
    dsimp only
    split
    · exact ⟨_, _, _, _, rfl⟩
    · split
      · exact ⟨_, _, _, _, rfl⟩
      · exact ⟨_, _, _, _, rfl⟩

lemma finalRow_head (snp_id position : String) (ls : List String) :
    (processRow (snpLookup snp_id position ls)).head? = some snp_id := by
  obtain ⟨x1, x2, x3, x4, h⟩ := snpLookup_shape snp_id position ls
  rw [h, processRow_cons5]
  rfl

lemma processRow_processRow : ∀ row : List String,
    processRow (processRow row) = processRow row
  | [] => rfl
  | [_] => rfl
  | [_, _] => rfl
  | [_, _, _] => rfl
  | [_, _, _, _] => rfl
  | a :: b :: c :: d :: e :: rest => by
    rw [processRow_cons5, processRow_cons5, mapGenotype_idem]

lemma processRow_length (row : List String) :
    (processRow row).length = row.length := by
  unfold processRow
  split
  · exact List.length_set row 4 _
  · rfl

lemma processRow_getElem?_ne (row : List String) (j : Nat) (h : j ≠ 4) :
    (processRow row)[j]? = row[j]? := by
  unfold processRow
  split
  · exact List.getElem?_set_ne (Ne.symm h)
  · rfl

lemma mappingPass_rows_getD (r : CsvReport) (i : Nat) :
    (mappingPass r).rows.getD i [] = processRow (r.rows.getD i []) := by
  unfold mappingPass
  rw [List.getD_eq_getElem?_getD, List.getElem?_map processRow r.rows i,
    List.getD_eq_getElem?_getD]
  cases r.rows[i]? with
  | none => rfl
  | some row => rfl

/-! ### Claims -/

/-- C1: for every VCF data line found at a queried SNP position whose
tab-split yields at least 10 fields, the CSV row written for that SNP has
Reference equal to field 4 (REF), Alternative equal to field 5 (ALT),
Annotation equal to field 8 (INFO), and Genotype equal to the prefix of
field 10 before the first `:`, subsequently mapped by the genotype label
mapper. -/
theorem C1_row_fields_from_vcf_line (snp_id position l : String)
    (rest : List String) (h1 : pyStrip l ≠ "")
    (h2 : 10 ≤ (splitTab (pyStrip l)).length) :
    processRow (snpLookup snp_id position (l :: rest)) =
      [snp_id, position,
       (splitTab (pyStrip l)).getD 3 "",
       (splitTab (pyStrip l)).getD 4 "",
       mapGenotype ((splitColon ((splitTab (pyStrip l)).getD 9 "")).headD ""),
       (splitTab (pyStrip l)).getD 7 ""] := by
  show processRow (extractRow snp_id position (pyStrip l)) = _
  unfold extractRow
  rw [if_neg h1]
  dsimp only
  rw [if_pos h2, processRow_cons5]

/-- Witness for C1 on a concrete annotated VCF record. -/
theorem C1_row_fields_from_vcf_line_witness :
    processRow (snpLookup "rs762551" "chr15:74749576"
        ["chr15\t74749576\t.\tA\tG\t50\tPASS\tANN=xyz\tGT:DP\t0/1:30"]) =
      ["rs762551", "chr15:74749576",
       (splitTab (pyStrip "chr15\t74749576\t.\tA\tG\t50\tPASS\tANN=xyz\tGT:DP\t0/1:30")).getD 3 "",
       (splitTab (pyStrip "chr15\t74749576\t.\tA\tG\t50\tPASS\tANN=xyz\tGT:DP\t0/1:30")).getD 4 "",
       mapGenotype ((splitColon ((splitTab (pyStrip "chr15\t74749576\t.\tA\tG\t50\tPASS\tANN=xyz\tGT:DP\t0/1:30")).getD 9 "")).headD ""),
       (splitTab (pyStrip "chr15\t74749576\t.\tA\tG\t50\tPASS\tANN=xyz\tGT:DP\t0/1:30")).getD 7 ""] :=
  C1_row_fields_from_vcf_line "rs762551" "chr15:74749576"
    "chr15\t74749576\t.\tA\tG\t50\tPASS\tANN=xyz\tGT:DP\t0/1:30" []
    (by decide) (by decide)

/-- C2: the genotype label mapping is a pure function on a single field
value: it maps exactly `0/0`, `0/1`, `1/1` to their labels and leaves
every other value unchanged. -/
theorem C2_mapGenotype_pure :
    mapGenotype "0/0" = "Homozygous Reference" ∧
    mapGenotype "0/1" = "Heterozygous" ∧
    mapGenotype "1/1" = "Homozygous Alternate" ∧
    ∀ g : String, g ≠ "0/0" → g ≠ "0/1" → g ≠ "1/1" → mapGenotype g = g := by
  refine ⟨by decide, by decide, by decide, ?_⟩
  intro g h1 h2 h3
  exact mapGenotype_of_ne g h1 h2 h3

/-- Witness for C2 at the sentinel value. -/
theorem C2_mapGenotype_pure_witness :
    mapGenotype "not found" = "not found" :=
  C2_mapGenotype_pure.2.2.2 "not found" (by decide) (by decide) (by decide)

/-- C3 counterexample: the claim says the report row written for a SNP
with no data line is the literal 5-tuple of `"not found"`; on the code the
row written for `rs762551` with an empty query result is
`[rs762551, chr15:74749576, not found, not found, not found, not found]`,
which differs from that 5-tuple. -/
theorem C3_not_found_counterexample :
    snpLookup "rs762551" "chr15:74749576" [] ≠
      ["not found", "not found", "not found", "not found", "not found"] := by
  decide

/-- C3 (amended): for every queried SNP position where the VCF query
yields no data line, an empty first line, or a first line with fewer than
10 tab-separated fields, the row written for that SNP is the SNP id and
position followed by the literal `"not found"` in each of the four
remaining columns (Reference, Alternative, Genotype, Annotation). -/
theorem C3_not_found_row (snp_id position : String) (dataLines : List String)
    (h : dataLines = [] ∨ ∃ l rest, dataLines = l :: rest ∧
      (pyStrip l = "" ∨ (splitTab (pyStrip l)).length < 10)) :
    snpLookup snp_id position dataLines =
      [snp_id, position, "not found", "not found", "not found", "not found"] := by
  rcases h with h | ⟨l, rest, hcons, h⟩
  · subst h; rfl
  · subst hcons
    show extractRow snp_id position (pyStrip l) = _
    unfold extractRow
    by_cases he : pyStrip l = ""
    · rw [if_pos he]; rfl
    · rw [if_neg he]
      dsimp only
      rcases h with h | h
      · exact absurd h he
      · rw [if_neg (by omega)]; rfl

/-- Witness for the amended C3 at an empty query result. -/
theorem C3_not_found_row_witness :
    snpLookup "rs2470893" "chr15:74745879" [] =
      ["rs2470893", "chr15:74745879", "not found", "not found",
       "not found", "not found"] :=
  C3_not_found_row "rs2470893" "chr15:74745879" [] (Or.inl rfl)

/-- C4: for every completed run, the report has the header row and then
exactly one data row per SNP id of the hardcoded 5-element list, in
declaration order, whatever the VCF queries return. -/
theorem C4_one_row_per_snp_in_order (query : String → List String) :
    (finalReport query).header =
      ["SNP", "Position", "Reference", "Alternative", "Genotype", "Annotation"] ∧
    (finalReport query).rows.length = 5 ∧
    (finalReport query).rows.map (fun row => row.headD "") =
      ["rs762551", "rs2069514", "rs2472300", "rs2472304", "rs2470893"] := by
  refine ⟨rfl, ?_, ?_⟩
  · simp [finalReport, mappingPass, firstPassReport, snps]
  · simp [finalReport, mappingPass, firstPassReport, snps, finalRow_head]

/-- C5: the genotype-mapping pass is idempotent on every CSV report. -/
theorem C5_mapping_pass_idempotent (r : CsvReport) :
    mappingPass (mappingPass r) = mappingPass r := by
  unfold mappingPass
  simp only [List.map_map]
  refine congrArg (CsvReport.mk r.header) ?_
  induction r.rows with
  | nil => rfl
  | cons row rows ih =>
    simp only [List.map_cons, Function.comp_apply, processRow_processRow,
      List.map_map] at ih ⊢
    rw [ih]

/-- The synthetic single-record VCF query of the end-to-end example: one
annotated data line at `chr15:74749576`, nothing at any other position. -/
def singleRecordQuery (position : String) : List String :=
  if position = "chr15:74749576" then
    ["chr15\t74749576\t.\tA\tG\t50\tPASS\tANN=xyz\tGT:DP\t0/1:30"]
  else
    []

/-- C6: end-to-end on the concrete input: with the single data line
`chr15 74749576 . A G 50 PASS ANN=xyz GT:DP 0/1:30` at `chr15:74749576`,
the report row for `rs762551` after both passes is exactly
`rs762551, chr15:74749576, A, G, Heterozygous, ANN=xyz`. -/
theorem C6_end_to_end_single_record :
    (finalReport singleRecordQuery).rows.headD [] =
      ["rs762551", "chr15:74749576", "A", "G", "Heterozygous", "ANN=xyz"] := by
  decide

/-- C7: error policy — every fixed setup invocation runs with
`check=True`, so any non-zero exit aborts the run; both per-SNP
invocations run with `check=False`, so a non-zero exit never aborts, and
the lookup always records a full 6-column row. -/
theorem C7_error_policy :
    (∀ st ∈ setupSteps, st.check = true) ∧
    (∀ snp_id position : String, ∀ st ∈ perSnpSteps snp_id position,
      st.check = false) ∧
    (∀ st : Step, ∀ exitCode : Nat, st.check = true → exitCode ≠ 0 →
      runStep exitCode st = Except.error st.cmd) ∧
    (∀ st : Step, ∀ exitCode : Nat, st.check = false →
      runStep exitCode st = Except.ok ()) ∧
    (∀ snp_id position : String, ∀ dataLines : List String,
      (snpLookup snp_id position dataLines).length = 6) := by
  refine ⟨by decide, ?_, ?_, ?_, ?_⟩
  · intro snp_id position st hst
    simp only [perSnpSteps, List.mem_cons, List.not_mem_nil, or_false] at hst
    rcases hst with h | h <;> subst h <;> rfl
  · intro st exitCode h1 h2
    simp [runStep, h1, h2]
  · intro st exitCode h1
    simp [runStep, h1]
  · intro snp_id position dataLines
    obtain ⟨x1, x2, x3, x4, h⟩ := snpLookup_shape snp_id position dataLines
    rw [h]
    rfl

/-- Witness for C7: a failing setup step aborts, a failing per-SNP step
does not. -/
theorem C7_error_policy_witness :
    runStep 1 ⟨"samtools index seq.cram", true⟩ =
      Except.error "samtools index seq.cram" ∧
    runStep 1 ⟨"bcftools view CYP1A2_annotated.vcf.gz chr15:74749576 > temp_bcftools_output.txt", false⟩ =
      Except.ok () :=
  ⟨C7_error_policy.2.2.1 ⟨"samtools index seq.cram", true⟩ 1 rfl (by decide),
   C7_error_policy.2.2.2.1
     ⟨"bcftools view CYP1A2_annotated.vcf.gz chr15:74749576 > temp_bcftools_output.txt", false⟩
     1 rfl⟩

/-- C8: only the first data line remaining after comment stripping
determines the row; every subsequent line is ignored. -/
theorem C8_first_line_determines_row (snp_id position l : String)
    (rest rest2 : List String) :
    snpLookup snp_id position (l :: rest) =
      snpLookup snp_id position (l :: rest2) :=
  rfl

/-- C9: frame property of the genotype-mapping pass — the header, the
number of data rows, their order, each row's length, and every column
other than index 4 (Genotype) are preserved. -/
theorem C9_mapping_pass_frame (r : CsvReport) (i j : Nat) (h : j ≠ 4) :
    (mappingPass r).header = r.header ∧
    (mappingPass r).rows.length = r.rows.length ∧
    ((mappingPass r).rows.getD i []).length = (r.rows.getD i []).length ∧
    ((mappingPass r).rows.getD i [])[j]? = (r.rows.getD i [])[j]? := by
  refine ⟨rfl, by simp [mappingPass], ?_, ?_⟩
  · rw [mappingPass_rows_getD]
    exact processRow_length _
  · rw [mappingPass_rows_getD]
    exact processRow_getElem?_ne _ j h

/-- Witness for C9 on a one-row report: column 0 is untouched. -/
theorem C9_mapping_pass_frame_witness :
    (0 : Nat) ≠ 4 ∧
    ((mappingPass ⟨["SNP"], [["id", "pos", "A", "G", "0/1", "info"]]⟩).rows.getD 0 [])[(0 : Nat)]? =
      ((⟨["SNP"], [["id", "pos", "A", "G", "0/1", "info"]]⟩ : CsvReport).rows.getD 0 [])[(0 : Nat)]? :=
  ⟨by decide,
   (C9_mapping_pass_frame ⟨["SNP"], [["id", "pos", "A", "G", "0/1", "info"]]⟩
     0 0 (by decide)).2.2.2⟩

/-- C10: a data row with fewer than 5 columns is never indexed at the
genotype column — the mapping pass returns it unchanged. -/
theorem C10_short_row_unchanged (row : List String) (h : row.length < 5) :
    processRow row = row :=
  processRow_short row h

/-- Witness for C10 on a 2-column row. -/
theorem C10_short_row_unchanged_witness :
    (["rs762551", "chr15:74749576"] : List String).length < 5 ∧
    processRow ["rs762551", "chr15:74749576"] = ["rs762551", "chr15:74749576"] :=
  ⟨by decide, C10_short_row_unchanged ["rs762551", "chr15:74749576"] (by decide)⟩
